import Mathlib

/-!
Verification of the OUI-Spy concurrent scan-state engine (src/main.cpp).

C++ strings are modeled as lists of byte values (ASCII codes), machine
integers as Int/Nat with explicit wrapping where the source casts, and the
FreeRTOS lock acquisitions as explicit boolean parameters (true = the
semaphore take succeeded within its timeout).
-/

namespace OuiSpy

/-! ## Configuration constants (namespace Config in main.cpp) -/

namespace Config

def DETECT_DEBOUNCE_MS : Nat := 250

def DETECT_PRESENCE_MS : Nat := 3000

def DETECT_STALE_MS : Nat := 12000

def FOX_BEEP_DUR_MS : Nat := 60

def FOX_LOST_TIMEOUT_MS : Nat := 4000

def MAX_PAYLOAD_DEVICES : Nat := 50

def MAX_PAYLOAD_SIZE : Nat := 64

def MAX_PAYLOAD_MEMORY : Nat := 10240

end Config

/-- The C cast to int16_t (two's-complement wrap-around). -/
def toInt16 (x : Int) : Int := (x + 32768) % 65536 - 32768

/-- The delimiter set stripped by toUpperNoDelim: colon, dash, space, CR, LF, tab. -/
def isDelim (c : Nat) : Bool :=
  c == 58 || c == 45 || c == 32 || c == 13 || c == 10 || c == 9

/-- C toupper on ASCII codes. -/
def asciiToUpper (c : Nat) : Nat := if 97 ≤ c ∧ c ≤ 122 then c - 32 else c

/-- C isxdigit on ASCII codes (0-9, a-f, A-F). -/
def isxdigit (c : Nat) : Bool :=
  (48 ≤ c && c ≤ 57) || (97 ≤ c && c ≤ 102) || (65 ≤ c && c ≤ 70)

/-- Loop body of toUpperNoDelim: `out` is the accumulator; the loop stops as
soon as the accumulator holds 12 characters. -/
def toUpperNoDelimGo : List Nat → List Nat → List Nat
  | out, [] => out
  | out, c :: rest =>
    if 12 ≤ out.length then out
    else if isDelim c then toUpperNoDelimGo out rest
    else toUpperNoDelimGo (out ++ [asciiToUpper c]) rest

/-- toUpperNoDelim from main.cpp: strips delimiters and uppercases, keeping at
most the first 12 non-delimiter characters. -/
def toUpperNoDelim (s : List Nat) : List Nat := toUpperNoDelimGo [] s

/-- The full stripped-and-uppercased content of the input, without the
12-character truncation.  This is the notion of "stripped content" the spec
text uses; it exists to be compared with the code's toUpperNoDelim. -/
def specNormalize (s : List Nat) : List Nat :=
  (s.filter (fun c => !isDelim c)).map asciiToUpper

/-- isValidMAC from main.cpp. -/
def isValidMAC (mac : List Nat) : Bool :=
  let clean := toUpperNoDelim mac
  if clean.length ≠ 6 ∧ clean.length ≠ 12 then false
  else clean.all isxdigit

/-- The per-filter comparison inside the loop of matchesAnyFilter: a 6-char
normalized filter matches by prefix, a 12-char one by equality, anything else
never matches. -/
def filterMatches (macNoDelim f : List Nat) : Bool :=
  let fNo := toUpperNoDelim f
  if fNo.length = 6 then List.isPrefixOf fNo macNoDelim
  else if fNo.length = 12 then macNoDelim == fNo
  else false

/-- matchesAnyFilter from main.cpp.  `lockOk` records whether the 100 ms
timed take of filtersMutex succeeded; on timeout the function returns false
without consulting the filter list. -/
def matchesAnyFilter (lockOk : Bool) (macNoDelim : List Nat)
    (filters : List (List Nat)) : Bool :=
  if lockOk then filters.any (fun f => filterMatches macNoDelim f) else false

/-! ## Lemmas about normalization -/

theorem toUpperNoDelimGo_of_full (s : List Nat) :
    ∀ out : List Nat, 12 ≤ out.length → toUpperNoDelimGo out s = out := by
  induction s with
  | nil => intro out _; rfl
  | cons c rest ih =>
      intro out h
      unfold toUpperNoDelimGo
      rw [if_pos h]

theorem specNormalize_nil : specNormalize [] = [] := rfl

theorem specNormalize_cons (c : Nat) (l : List Nat) :
    specNormalize (c :: l) =
      if isDelim c then specNormalize l else asciiToUpper c :: specNormalize l := by
  simp only [specNormalize, List.filter_cons]
  cases h : isDelim c <;> simp

theorem toUpperNoDelimGo_eq (s : List Nat) :
    ∀ out : List Nat, out.length ≤ 12 →
      toUpperNoDelimGo out s = out ++ (specNormalize s).take (12 - out.length) := by
  induction s with
  | nil => intro out _; simp [toUpperNoDelimGo, specNormalize]
  | cons c rest ih =>
      intro out hout
      unfold toUpperNoDelimGo
      by_cases hfull : 12 ≤ out.length
      · rw [if_pos hfull]
        have : 12 - out.length = 0 := by omega
        simp [this]
      · rw [if_neg hfull]
        rw [specNormalize_cons]
        cases hd : isDelim c with
        | true =>
            simp only [hd, if_true]
            exact ih out hout
        | false =>
            simp only [hd, Bool.false_eq_true, if_false]
            rw [ih (out ++ [asciiToUpper c])
              (by simp only [List.length_append, List.length_cons, List.length_nil]; omega)]
            have hlen : (out ++ [asciiToUpper c]).length = out.length + 1 := by
              simp
            rw [hlen]
            have hsub : 12 - out.length = (12 - (out.length + 1)) + 1 := by omega
            rw [hsub, List.take_succ_cons]
            simp

theorem toUpperNoDelim_eq_take (s : List Nat) :
    toUpperNoDelim s = (specNormalize s).take 12 := by
  unfold toUpperNoDelim
  rw [toUpperNoDelimGo_eq s [] (by simp)]
  simp

theorem isDelim_of_upEq (a b : Nat) (h : asciiToUpper a = asciiToUpper b) :
    isDelim a = isDelim b := by
  have hiff : isDelim a = true ↔ isDelim b = true := by
    simp only [isDelim, Bool.or_eq_true, beq_iff_eq]
    unfold asciiToUpper at h
    split_ifs at h <;> omega
  cases ha : isDelim a <;> cases hb : isDelim b <;> simp_all

theorem specNormalize_congr {f g : List Nat}
    (h : List.Forall₂ (fun x y => asciiToUpper x = asciiToUpper y) f g) :
    specNormalize f = specNormalize g := by
  induction h with
  | nil => rfl
  | @cons a b l1 l2 hab _ ih =>
      rw [specNormalize_cons, specNormalize_cons, isDelim_of_upEq a b hab]
      cases hd : isDelim b
      · simp only [hd, Bool.false_eq_true, if_false]
        rw [hab, ih]
      · simp only [hd, if_true]
        exact ih

theorem specNormalize_insert_delim (c : Nat) (h : isDelim c = true)
    (pre suf : List Nat) :
    specNormalize (pre ++ c :: suf) = specNormalize (pre ++ suf) := by
  simp [specNormalize, List.filter_append, List.filter_cons, h]

theorem toUpperNoDelim_congr {f g : List Nat}
    (h : List.Forall₂ (fun x y => asciiToUpper x = asciiToUpper y) f g) :
    toUpperNoDelim f = toUpperNoDelim g := by
  rw [toUpperNoDelim_eq_take, toUpperNoDelim_eq_take, specNormalize_congr h]

theorem toUpperNoDelim_insert_delim (c : Nat) (h : isDelim c = true)
    (pre suf : List Nat) :
    toUpperNoDelim (pre ++ c :: suf) = toUpperNoDelim (pre ++ suf) := by
  rw [toUpperNoDelim_eq_take, toUpperNoDelim_eq_take,
    specNormalize_insert_delim c h]

/-- Claim C1: the filter match predicate returns true iff the normalized
filter has length 6 and the observed (normalized) address starts with it, or
has length 12 and equals it exactly; and neither case changes nor inserted
delimiters in the filter text ever affect the outcome. -/
theorem C1_filter_match (a f : List Nat) :
    (filterMatches a f =
      ((decide ((toUpperNoDelim f).length = 6) && List.isPrefixOf (toUpperNoDelim f) a)
        || (decide ((toUpperNoDelim f).length = 12) && (a == toUpperNoDelim f))))
    ∧ (∀ g, List.Forall₂ (fun x y => asciiToUpper x = asciiToUpper y) f g →
        filterMatches a g = filterMatches a f)
    ∧ (∀ pre suf c, isDelim c = true →
        filterMatches a (pre ++ c :: suf) = filterMatches a (pre ++ suf)) := by
  refine ⟨?_, ?_, ?_⟩
  · show (if (toUpperNoDelim f).length = 6 then List.isPrefixOf (toUpperNoDelim f) a
      else if (toUpperNoDelim f).length = 12 then a == toUpperNoDelim f else false) = _
    split_ifs with h6 h12 <;> simp_all
  · intro g hg
    unfold filterMatches
    rw [toUpperNoDelim_congr hg]
  · intro pre suf c hc
    unfold filterMatches
    rw [toUpperNoDelim_insert_delim c hc pre suf]

/-- Witness for C1 at the concrete address AABBCC112233 with filter aabbcc:
the case-changed variant AaBbCc and the colon-delimited variant aa:bbcc match
identically. -/
theorem C1_filter_match_witness :
    (List.Forall₂ (fun x y => asciiToUpper x = asciiToUpper y)
        ([97, 97, 98, 98, 99, 99] : List Nat) [65, 97, 66, 98, 67, 99]
      ∧ filterMatches [65, 65, 66, 66, 67, 67, 49, 49, 50, 50, 51, 51]
          [65, 97, 66, 98, 67, 99] =
        filterMatches [65, 65, 66, 66, 67, 67, 49, 49, 50, 50, 51, 51]
          [97, 97, 98, 98, 99, 99])
    ∧ (isDelim 58 = true
      ∧ filterMatches [65, 65, 66, 66, 67, 67, 49, 49, 50, 50, 51, 51]
          ([97, 97] ++ 58 :: [98, 98, 99, 99]) =
        filterMatches [65, 65, 66, 66, 67, 67, 49, 49, 50, 50, 51, 51]
          ([97, 97] ++ [98, 98, 99, 99])) := by
  have hf : List.Forall₂ (fun x y => asciiToUpper x = asciiToUpper y)
      ([97, 97, 98, 98, 99, 99] : List Nat) [65, 97, 66, 98, 67, 99] := by
    refine .cons (by decide) (.cons (by decide) (.cons (by decide)
      (.cons (by decide) (.cons (by decide) (.cons (by decide) .nil)))))
  exact ⟨⟨hf, (C1_filter_match [65, 65, 66, 66, 67, 67, 49, 49, 50, 50, 51, 51]
      [97, 97, 98, 98, 99, 99]).2.1 _ hf⟩,
    ⟨by decide, (C1_filter_match [65, 65, 66, 66, 67, 67, 49, 49, 50, 50, 51, 51]
      [97, 97, 98, 98, 99, 99]).2.2 [97, 97] [98, 98, 99, 99] 58 (by decide)⟩⟩

/-! ## Baseline data model (structs ObservedEnhanced, BaselineConfig, the
interim maps, and the BLE/Wi-Fi ingestion paths) -/

/-- ObservedEnhanced from main.cpp.  Enum-valued fields (address type, auth
mode, ciphers) are modeled as raw numbers. -/
@[ext]
structure ObservedEnhanced where
  name : List Nat
  source : List Nat
  rssi : Int
  hasRssi : Bool
  hasPayload : Bool
  payloadData : List Nat
  payloadLength : Nat
  addrType : Nat
  hasWiFiMeta : Bool
  channel : Nat
  authMode : Nat
  pairwiseCipher : Nat
  groupCipher : Nat
  isHidden : Bool
deriving DecidableEq

/-- The default-constructed ObservedEnhanced (the value std::map operator[]
inserts for a fresh key). -/
def ObservedEnhanced.init : ObservedEnhanced :=
  { name := [], source := [], rssi := -127, hasRssi := false,
    hasPayload := false, payloadData := List.replicate 64 0, payloadLength := 0,
    addrType := 0, hasWiFiMeta := false, channel := 0, authMode := 0,
    pairwiseCipher := 0, groupCipher := 0, isHidden := false }

/-- C memcpy of the first n bytes of src over dst. -/
def memcpyList (dst src : List Nat) (n : Nat) : List Nat :=
  src.take n ++ dst.drop n

/-- safeCopy from main.cpp: copies at most destSize - 1 characters. -/
def safeCopy (destSize : Nat) (src : List Nat) : List Nat :=
  src.take (destSize - 1)

/-- setBestRssiEnhanced from main.cpp: keep the stronger (more positive) of
the existing and the new RSSI; the stored field is an int16_t. -/
def setBestRssiEnhanced (o : ObservedEnhanced) (rssiDbm : Int) : ObservedEnhanced :=
  if o.hasRssi = false ∨ rssiDbm > o.rssi then
    { o with rssi := toInt16 rssiDbm, hasRssi := true }
  else o

theorem toInt16_of_range (x : Int) (h1 : -32768 ≤ x) (h2 : x ≤ 32767) :
    toInt16 x = x := by
  unfold toInt16
  omega

/-- Claim C2: baseline RSSI reconciliation is commutative and idempotent —
merging obs1 then obs2 equals merging obs2 then obs1, both equal one merge of
the strongest observation, and merging the same RSSI twice equals merging it
once.  RSSI values are within int16 range (they come from the radio in dBm). -/
theorem C2_rssi_merge_comm_idem (X : ObservedEnhanced) (r1 r2 : Int)
    (h1a : -32768 ≤ r1) (h1b : r1 ≤ 32767)
    (h2a : -32768 ≤ r2) (h2b : r2 ≤ 32767) :
    setBestRssiEnhanced (setBestRssiEnhanced X r1) r2 =
      setBestRssiEnhanced (setBestRssiEnhanced X r2) r1
    ∧ setBestRssiEnhanced (setBestRssiEnhanced X r1) r2 =
      setBestRssiEnhanced X (max r1 r2)
    ∧ setBestRssiEnhanced (setBestRssiEnhanced X r1) r1 =
      setBestRssiEnhanced X r1 := by
  have e1 : toInt16 r1 = r1 := toInt16_of_range r1 h1a h1b
  have e2 : toInt16 r2 = r2 := toInt16_of_range r2 h2a h2b
  have em : toInt16 (max r1 r2) = max r1 r2 :=
    toInt16_of_range _ (by omega) (by omega)
  unfold setBestRssiEnhanced
  rw [e1, e2, em]
  split_ifs <;>
    first
      | rfl
      | (simp_all only [ObservedEnhanced.mk.injEq, and_true, true_and]
         <;> simp_all <;> omega)

/-- Witness for C2 at a fresh record and RSSI values -80 and -40. -/
theorem C2_rssi_merge_comm_idem_witness :
    ((-32768 : Int) ≤ -80 ∧ (-80 : Int) ≤ 32767
      ∧ (-32768 : Int) ≤ -40 ∧ (-40 : Int) ≤ 32767)
    ∧ (setBestRssiEnhanced (setBestRssiEnhanced ObservedEnhanced.init (-80)) (-40) =
        setBestRssiEnhanced (setBestRssiEnhanced ObservedEnhanced.init (-40)) (-80)
      ∧ setBestRssiEnhanced (setBestRssiEnhanced ObservedEnhanced.init (-80)) (-40) =
        setBestRssiEnhanced ObservedEnhanced.init (max (-80) (-40))
      ∧ setBestRssiEnhanced (setBestRssiEnhanced ObservedEnhanced.init (-80)) (-80) =
        setBestRssiEnhanced ObservedEnhanced.init (-80)) :=
  ⟨by decide,
    C2_rssi_merge_comm_idem ObservedEnhanced.init (-80) (-40)
      (by decide) (by decide) (by decide) (by decide)⟩

/-! ## Detection engine (DetectionState, the BLE advertisement handler, and
the detection loop body) -/

/-- DetectionState from main.cpp (the running flag is passed separately). -/
@[ext]
structure DetectionState where
  lastSeenMs : Nat
  bestRssi : Int
  lastRssi : Int
  lastHitMs : Nat
  hitPending : Bool
deriving DecidableEq

/-- The locked state-update body of DetectBLECallbacks::onResult, together
with a boolean telling whether this invocation raised the debounce edge
(i.e. executed the branch that sets lastHitMs and hitPending). -/
def detectAdvUpdate (st : DetectionState) (rssi : Int) (now : Nat) :
    DetectionState × Bool :=
  let st1 := { st with lastSeenMs := now, lastRssi := toInt16 rssi }
  let st2 := if rssi > st1.bestRssi then { st1 with bestRssi := toInt16 rssi } else st1
  if Config.DETECT_DEBOUNCE_MS ≤ now - st2.lastHitMs then
    ({ st2 with lastHitMs := now, hitPending := true }, true)
  else (st2, false)

/-- DetectBLECallbacks::onResult from main.cpp, with the early-return gates:
running flag, 12-character address check, filter match (under the filter
lock), and the 10 ms timed take of detectMutex. -/
def detectOnResult (running filterLockOk detectLockOk : Bool)
    (filters : List (List Nat)) (addr : List Nat) (rssi : Int) (now : Nat)
    (st : DetectionState) : DetectionState × Bool :=
  if running = false then (st, false)
  else
    let macNo := toUpperNoDelim addr
    if macNo.length ≠ 12 then (st, false)
    else if matchesAnyFilter filterLockOk macNo filters = false then (st, false)
    else if detectLockOk = false then (st, false)
    else detectAdvUpdate st rssi now

/-- A burst of matching, lock-acquiring advertisements handled in order:
returns the final state and the times at which a debounce edge was raised. -/
def runDetectAds (st : DetectionState) : List (Nat × Int) → DetectionState × List Nat
  | [] => (st, [])
  | (t, r) :: rest =>
    let u := detectAdvUpdate st r t
    let v := runDetectAds u.1 rest
    (v.1, if u.2 then t :: v.2 else v.2)

theorem detectAdvUpdate_edge_iff (st : DetectionState) (r : Int) (t : Nat) :
    (detectAdvUpdate st r t).2 = true ↔ 250 ≤ t - st.lastHitMs := by
  unfold detectAdvUpdate Config.DETECT_DEBOUNCE_MS
  dsimp only
  by_cases hb : r > st.bestRssi
  · rw [if_pos hb]
    dsimp only
    split_ifs <;> simp_all
  · rw [if_neg hb]
    dsimp only
    split_ifs <;> simp_all

theorem detectAdvUpdate_lastHit (st : DetectionState) (r : Int) (t : Nat) :
    (detectAdvUpdate st r t).1.lastHitMs =
      if 250 ≤ t - st.lastHitMs then t else st.lastHitMs := by
  unfold detectAdvUpdate Config.DETECT_DEBOUNCE_MS
  dsimp only
  by_cases hb : r > st.bestRssi
  · rw [if_pos hb]
    dsimp only
    split_ifs <;> simp_all
  · rw [if_neg hb]
    dsimp only
    split_ifs <;> simp_all

/-- Invariant of a burst: if the advertisement times are sorted and all lie
at or after the state's lastHitMs, the raised edge times are pairwise at
least the debounce window apart, and each is at least a window after the
initial lastHitMs. -/
theorem runDetectAds_pairwise :
    ∀ (ads : List (Nat × Int)) (st : DetectionState),
      List.Pairwise (fun x y => x.1 ≤ y.1) ads →
      (∀ x ∈ ads, st.lastHitMs ≤ x.1) →
      List.Pairwise (fun a b => a + 250 ≤ b) (runDetectAds st ads).2
      ∧ (∀ e ∈ (runDetectAds st ads).2, st.lastHitMs + 250 ≤ e) := by
  intro ads
  induction ads with
  | nil => intro st _ _; exact ⟨List.Pairwise.nil, by intro e he; cases he⟩
  | cons x rest ih =>
      intro st hsorted hstart
      obtain ⟨hx, hrest⟩ := List.pairwise_cons.mp hsorted
      have hx0 : st.lastHitMs ≤ x.1 := hstart x (List.mem_cons_self x rest)
      show List.Pairwise _ (runDetectAds st (x :: rest)).2
        ∧ ∀ e ∈ (runDetectAds st (x :: rest)).2, st.lastHitMs + 250 ≤ e
      have hrun : runDetectAds st (x :: rest) =
          ((runDetectAds (detectAdvUpdate st x.2 x.1).1 rest).1,
            if (detectAdvUpdate st x.2 x.1).2 then
              x.1 :: (runDetectAds (detectAdvUpdate st x.2 x.1).1 rest).2
            else (runDetectAds (detectAdvUpdate st x.2 x.1).1 rest).2) := rfl
      rw [hrun]
      cases hedge : (detectAdvUpdate st x.2 x.1).2 with
      | true =>
          have hhit : (detectAdvUpdate st x.2 x.1).1.lastHitMs = x.1 := by
            rw [detectAdvUpdate_lastHit]
            rw [if_pos ((detectAdvUpdate_edge_iff st x.2 x.1).mp hedge)]
          have hgap : st.lastHitMs + 250 ≤ x.1 := by
            have := (detectAdvUpdate_edge_iff st x.2 x.1).mp hedge
            omega
          have hih := ih (detectAdvUpdate st x.2 x.1).1 hrest
            (by intro y hy; rw [hhit]; exact hx y hy)
          rw [hhit] at hih
          simp only [if_pos rfl]
          constructor
          · exact List.pairwise_cons.mpr ⟨fun e he => hih.2 e he, hih.1⟩
          · intro e he
            rcases List.mem_cons.mp he with h | h
            · omega
            · have := hih.2 e h
              omega
      | false =>
          have hhit : (detectAdvUpdate st x.2 x.1).1.lastHitMs = st.lastHitMs := by
            rw [detectAdvUpdate_lastHit]
            have hnot : ¬ 250 ≤ x.1 - st.lastHitMs := by
              intro hc
              have := (detectAdvUpdate_edge_iff st x.2 x.1).mpr hc
              rw [hedge] at this
              cases this
            rw [if_neg hnot]
          have hih := ih (detectAdvUpdate st x.2 x.1).1 hrest
            (by intro y hy; rw [hhit]
                exact hstart y (List.mem_cons_of_mem x hy))
          rw [hhit] at hih
          simp only [Bool.false_eq_true, if_false]
          exact hih

/-- In a list whose elements are pairwise at least 250 apart, any window of
width 250 contains at most one element. -/
theorem pairwise_gap_window (l : List Nat)
    (hp : List.Pairwise (fun a b => a + 250 ≤ b) l) (w : Nat) :
    (l.filter (fun e => decide (w ≤ e) && decide (e < w + 250))).length ≤ 1 := by
  induction l with
  | nil => simp
  | cons x xs ih =>
      obtain ⟨hx, hxs⟩ := List.pairwise_cons.mp hp
      rw [List.filter_cons]
      cases hpx : (decide (w ≤ x) && decide (x < w + 250)) with
      | false => exact ih hxs
      | true =>
          simp only [if_pos rfl]
          have hempty : xs.filter (fun e => decide (w ≤ e) && decide (e < w + 250)) = [] := by
            rw [List.filter_eq_nil_iff]
            intro y hy
            have hxy := hx y hy
            simp only [Bool.and_eq_true, decide_eq_true_eq] at hpx ⊢
            omega
          rw [hempty]
          simp

/-- Counterexample to claim C3 as stated: with a previous debounce edge at
lastHitMs = 100, two matching lock-acquiring advertisements at 340 ms and
350 ms (10 ms apart, well under 250 ms) raise their single edge on the
SECOND invocation, not the first — the first does not update lastHitMs. -/
theorem C3_counterexample :
    (detectAdvUpdate ⟨0, -127, -127, 100, true⟩ (-60) 340).2 = false
    ∧ (detectAdvUpdate (detectAdvUpdate ⟨0, -127, -127, 100, true⟩ (-60) 340).1
        (-60) 350).2 = true
    ∧ 350 - 340 < 250 := by decide

/-- Claim C3 amended: two matching lock-acquiring advertisements less than
250 ms apart raise at most one debounce edge between them; when at least
250 ms have elapsed since lastHitMs at the first advertisement, exactly one
edge is raised, on the first; and in any burst of time-sorted matching
advertisements at most one edge is raised per 250 ms window. -/
theorem C3_debounce_amended (st : DetectionState) (t1 t2 : Nat) (r1 r2 : Int)
    (hle : t1 ≤ t2) (hlt : t2 < t1 + 250) :
    (runDetectAds st [(t1, r1), (t2, r2)]).2.length ≤ 1
    ∧ (st.lastHitMs + 250 ≤ t1 →
        (runDetectAds st [(t1, r1), (t2, r2)]).2 = [t1])
    ∧ (∀ ads : List (Nat × Int), List.Pairwise (fun x y => x.1 ≤ y.1) ads →
        (∀ x ∈ ads, st.lastHitMs ≤ x.1) →
        ∀ w, ((runDetectAds st ads).2.filter
            (fun e => decide (w ≤ e) && decide (e < w + 250))).length ≤ 1) := by
  have hrun2 : (runDetectAds st [(t1, r1), (t2, r2)]).2 =
      (if (detectAdvUpdate st r1 t1).2 then
        t1 :: (if (detectAdvUpdate (detectAdvUpdate st r1 t1).1 r2 t2).2
          then [t2] else [])
      else (if (detectAdvUpdate (detectAdvUpdate st r1 t1).1 r2 t2).2
        then [t2] else [])) := rfl
  refine ⟨?_, ?_, ?_⟩
  · rw [hrun2]
    cases h1 : (detectAdvUpdate st r1 t1).2 with
    | false =>
        simp only [Bool.false_eq_true, if_false]
        split_ifs <;> simp
    | true =>
        have hhit : (detectAdvUpdate st r1 t1).1.lastHitMs = t1 := by
          rw [detectAdvUpdate_lastHit,
            if_pos ((detectAdvUpdate_edge_iff st r1 t1).mp h1)]
        have h2 : (detectAdvUpdate (detectAdvUpdate st r1 t1).1 r2 t2).2 = false := by
          have hiff := detectAdvUpdate_edge_iff (detectAdvUpdate st r1 t1).1 r2 t2
          rw [hhit] at hiff
          cases hv : (detectAdvUpdate (detectAdvUpdate st r1 t1).1 r2 t2).2 with
          | false => rfl
          | true =>
              have := hiff.mp hv
              omega
        simp [h2]
  · intro hfirst
    have h1 : (detectAdvUpdate st r1 t1).2 = true :=
      (detectAdvUpdate_edge_iff st r1 t1).mpr (by omega)
    have hhit : (detectAdvUpdate st r1 t1).1.lastHitMs = t1 := by
      rw [detectAdvUpdate_lastHit,
        if_pos ((detectAdvUpdate_edge_iff st r1 t1).mp h1)]
    have h2 : (detectAdvUpdate (detectAdvUpdate st r1 t1).1 r2 t2).2 = false := by
      have hiff := detectAdvUpdate_edge_iff (detectAdvUpdate st r1 t1).1 r2 t2
      rw [hhit] at hiff
      cases hv : (detectAdvUpdate (detectAdvUpdate st r1 t1).1 r2 t2).2 with
      | false => rfl
      | true =>
          have := hiff.mp hv
          omega
    rw [hrun2]
    simp [h1, h2]
  · intro ads hs hstart w
    exact pairwise_gap_window _ (runDetectAds_pairwise ads st hs hstart).1 w

/-- Witness for C3 (amended) at a fresh detection state and advertisements
at 1000 ms and 1100 ms. -/
theorem C3_debounce_amended_witness :
    ((1000 : Nat) ≤ 1100 ∧ (1100 : Nat) < 1000 + 250)
    ∧ ((runDetectAds ⟨0, -127, -127, 0, false⟩ [(1000, -60), (1100, -50)]).2.length ≤ 1
      ∧ ((⟨0, -127, -127, 0, false⟩ : DetectionState).lastHitMs + 250 ≤ 1000 →
          (runDetectAds ⟨0, -127, -127, 0, false⟩ [(1000, -60), (1100, -50)]).2 = [1000])
      ∧ (∀ ads : List (Nat × Int), List.Pairwise (fun x y => x.1 ≤ y.1) ads →
          (∀ x ∈ ads, (⟨0, -127, -127, 0, false⟩ : DetectionState).lastHitMs ≤ x.1) →
          ∀ w, ((runDetectAds ⟨0, -127, -127, 0, false⟩ ads).2.filter
              (fun e => decide (w ≤ e) && decide (e < w + 250))).length ≤ 1)) :=
  ⟨⟨by decide, by decide⟩,
    C3_debounce_amended ⟨0, -127, -127, 0, false⟩ 1000 1100 (-60) (-50)
      (by decide) (by decide)⟩

/-- One evaluation of the detection-loop body (lines computing `present` and
the alert in detectionTask).  `lock1`/`lock2` are the two 10 ms timed takes of
detectMutex; `anyMatch` tells whether a Wi-Fi BSSID matched this tick;
`lastSignal` is lastDetectSignalMs.  Returns the new detection state, the new
lastDetectSignalMs, and the emitted alert's RSSI (none when no alert). -/
def detectTick (lock1 lock2 : Bool) (st : DetectionState) (lastSignal : Nat)
    (anyMatch : Bool) (now : Nat) : DetectionState × Nat × Option Int :=
  let present := anyMatch ||
    (lock1 && (decide (st.lastSeenMs ≠ 0) &&
      decide (now - st.lastSeenMs ≤ Config.DETECT_STALE_MS)))
  if present = true ∧ Config.DETECT_PRESENCE_MS ≤ now - lastSignal then
    if lock2 = true then
      ({ st with bestRssi := -127 }, now,
        some (if st.bestRssi = -127 then st.lastRssi else st.bestRssi))
    else (st, now, some (-127))
  else (st, lastSignal, none)

/-- Claim C4: with the detection lock available, presence is Wi-Fi match this
tick OR a BLE sighting within the 12 s stale window; when presence holds and
at least 3 s have passed since the previous alert, exactly one alert is
emitted carrying the accumulated best RSSI (falling back to lastRssi when the
accumulator still holds the -127 sentinel), the accumulator is reset to -127
and the alert time set to now; otherwise no alert is emitted and nothing
changes. -/
theorem C4_presence_alert (st : DetectionState) (lastSignal : Nat)
    (anyMatch : Bool) (now : Nat) :
    ((anyMatch = true ∨ (st.lastSeenMs ≠ 0 ∧ now - st.lastSeenMs ≤ 12000))
        ∧ 3000 ≤ now - lastSignal →
      detectTick true true st lastSignal anyMatch now =
        ({ st with bestRssi := -127 }, now,
          some (if st.bestRssi = -127 then st.lastRssi else st.bestRssi)))
    ∧ (¬ ((anyMatch = true ∨ (st.lastSeenMs ≠ 0 ∧ now - st.lastSeenMs ≤ 12000))
          ∧ 3000 ≤ now - lastSignal) →
      detectTick true true st lastSignal anyMatch now = (st, lastSignal, none)) := by
  have hpres : (anyMatch || (true && (decide (st.lastSeenMs ≠ 0) &&
      decide (now - st.lastSeenMs ≤ Config.DETECT_STALE_MS)))) = true ↔
      (anyMatch = true ∨ (st.lastSeenMs ≠ 0 ∧ now - st.lastSeenMs ≤ 12000)) := by
    unfold Config.DETECT_STALE_MS
    simp
  constructor
  · rintro ⟨hp, ht⟩
    unfold detectTick
    dsimp only
    rw [if_pos ⟨hpres.mpr hp, ht⟩, if_pos rfl]
  · intro hn
    unfold detectTick
    dsimp only
    rw [if_neg (fun hc => hn ⟨hpres.mp hc.1, hc.2⟩)]

/-- Witness for C4: a target last seen at 1000 ms, best RSSI -60, evaluated
at 5000 ms with no prior alert, emits exactly one alert at -60 dBm and resets
the accumulator. -/
theorem C4_presence_alert_witness :
    ((false = true ∨ ((1000 : Nat) ≠ 0 ∧ (5000 : Nat) - 1000 ≤ 12000))
        ∧ (3000 : Nat) ≤ 5000 - 0)
    ∧ detectTick true true ⟨1000, -60, -70, 0, false⟩ 0 false 5000 =
        (⟨1000, -127, -70, 0, false⟩, 5000, some (-60)) := by
  have h := (C4_presence_alert ⟨1000, -60, -70, 0, false⟩ 0 false 5000).1
    ⟨Or.inr (by decide), by decide⟩
  exact ⟨⟨Or.inr (by decide), by decide⟩, by rw [h]; decide⟩

/-! ## Baseline ingestion: the BLE collector callback, the Wi-Fi metadata
loop body, and the dual-radio merge -/

/-- Association-list model of std::map<String, ObservedEnhanced>. -/
def mapLookup : List (List Nat × ObservedEnhanced) → List Nat → Option ObservedEnhanced
  | [], _ => none
  | (k, v) :: rest, key => if k = key then some v else mapLookup rest key

def mapInsert : List (List Nat × ObservedEnhanced) → List Nat → ObservedEnhanced →
    List (List Nat × ObservedEnhanced)
  | [], key, v => [(key, v)]
  | (k, w) :: rest, key, v =>
    if k = key then (key, v) :: rest else (k, w) :: mapInsert rest key v

theorem mapLookup_insert_self (m : List (List Nat × ObservedEnhanced))
    (k : List Nat) (v : ObservedEnhanced) :
    mapLookup (mapInsert m k v) k = some v := by
  induction m with
  | nil => simp [mapInsert, mapLookup]
  | cons p rest ih =>
      unfold mapInsert
      by_cases h : p.1 = k
      · rw [if_pos h]
        simp [mapLookup]
      · rw [if_neg h]
        unfold mapLookup
        rw [if_neg h]
        exact ih

/-- BaselineConfig from main.cpp (mode and duration do not matter for the
per-observation ingestion rules). -/
structure BaselineConfig where
  rssiThreshold : Int
  capturePayload : Bool

/-- The fields of a NimBLE advertisement the collector callback reads. -/
structure BleAdv where
  addr : List Nat
  rssi : Int
  haveName : Bool
  name : List Nat
  addrType : Nat
  payload : List Nat

/-- The Wi-Fi scan-result fields the baseline metadata loop reads. -/
structure WifiNet where
  bssid : List Nat
  rssi : Int
  ssid : List Nat
  channel : Nat
  authMode : Nat
  pairwiseCipher : Nat
  groupCipher : Nat

/-- The mutable fields of EnhancedBLECollector. -/
structure CollectorState where
  entries : List (List Nat × ObservedEnhanced)
  payloadMemoryUsed : Nat
  devicesWithPayload : Nat
deriving DecidableEq

/-- The string constant BLE. -/
def strBLE : List Nat := [66, 76, 69]

/-- The string constant Wi-Fi. -/
def strWiFi : List Nat := [87, 105, 45, 70, 105]

/-- EnhancedBLECollector::onResult from main.cpp.  `lockOk` is the 100 ms
timed take of the collector's mutex. -/
def bleOnResult (cfg : BaselineConfig) (st : CollectorState) (lockOk : Bool)
    (dev : BleAdv) : CollectorState :=
  let macNo := toUpperNoDelim dev.addr
  if macNo.length ≠ 12 then st
  else if dev.rssi < cfg.rssiThreshold then st
  else if lockOk = false then st
  else
    let o0 := (mapLookup st.entries macNo).getD ObservedEnhanced.init
    let o1 := { o0 with source := safeCopy 8 strBLE }
    let o2 := setBestRssiEnhanced o1 dev.rssi
    let o3 := { o2 with addrType := dev.addrType }
    let o4 := if dev.haveName = true ∧ 0 < dev.name.length then
        { o3 with name := safeCopy 64 dev.name }
      else o3
    if cfg.capturePayload = true ∧ o4.hasPayload = false then
      if st.devicesWithPayload < Config.MAX_PAYLOAD_DEVICES
          ∧ st.payloadMemoryUsed < Config.MAX_PAYLOAD_MEMORY then
        if 0 < dev.payload.length ∧ dev.payload.length ≤ Config.MAX_PAYLOAD_SIZE then
          let o5 := { o4 with
            payloadData := memcpyList o4.payloadData dev.payload dev.payload.length,
            payloadLength := dev.payload.length,
            hasPayload := true }
          { entries := mapInsert st.entries macNo o5,
            payloadMemoryUsed := st.payloadMemoryUsed + dev.payload.length,
            devicesWithPayload := st.devicesWithPayload + 1 }
        else { st with entries := mapInsert st.entries macNo o4 }
      else { st with entries := mapInsert st.entries macNo o4 }
    else { st with entries := mapInsert st.entries macNo o4 }

/-- The per-network body of the scan loop in captureWiFiMetadata. -/
def wifiObserve (cfg : BaselineConfig) (m : List (List Nat × ObservedEnhanced))
    (w : WifiNet) : List (List Nat × ObservedEnhanced) :=
  if w.rssi < cfg.rssiThreshold then m
  else
    let bssidNo := toUpperNoDelim w.bssid
    if bssidNo.length ≠ 12 then m
    else
      let o0 := (mapLookup m bssidNo).getD ObservedEnhanced.init
      let o1 := { o0 with source := safeCopy 8 strWiFi }
      let o2 := setBestRssiEnhanced o1 w.rssi
      let o3 := if 0 < w.ssid.length ∧ o2.name = [] then
          { o2 with name := safeCopy 64 w.ssid }
        else o2
      let o4 := if o3.hasWiFiMeta = false then
          { o3 with
            hasWiFiMeta := true
            channel := w.channel
            authMode := w.authMode
            isHidden := w.ssid.length = 0
            pairwiseCipher := w.pairwiseCipher
            groupCipher := w.groupCipher }
        else o3
      mapInsert m bssidNo o4

/-- One step of the merge loop in enhancedBaselineTask that folds the BLE
interim map into the Wi-Fi map once both feeds stop. -/
def mergeBLEEntry (m : List (List Nat × ObservedEnhanced)) (mac : List Nat)
    (oBle : ObservedEnhanced) : List (List Nat × ObservedEnhanced) :=
  match mapLookup m mac with
  | none => mapInsert m mac oBle
  | some o2 =>
    let o2a := if o2.name = [] ∧ oBle.name ≠ [] then
        { o2 with name := safeCopy 64 oBle.name }
      else o2
    let o2b := if oBle.hasRssi = true ∧ oBle.rssi > o2a.rssi then
        { o2a with rssi := oBle.rssi, hasRssi := true }
      else o2a
    let o2c := if oBle.hasPayload = true ∧ o2b.hasPayload = false then
        { o2b with
          payloadData := memcpyList o2b.payloadData oBle.payloadData oBle.payloadLength,
          payloadLength := oBle.payloadLength,
          hasPayload := true,
          addrType := oBle.addrType }
      else o2b
    mapInsert m mac o2c

/-- The whole merge loop (under the 1000 ms take of the collector mutex). -/
def mergeBLE (lockOk : Bool) (wifiMap : List (List Nat × ObservedEnhanced))
    (bleEntries : List (List Nat × ObservedEnhanced)) :
    List (List Nat × ObservedEnhanced) :=
  if lockOk then bleEntries.foldl (fun m p => mergeBLEEntry m p.1 p.2) wifiMap
  else wifiMap

/-- Claim C5: with an RSSI threshold configured, a BLE or Wi-Fi observation
strictly below the threshold is discarded before any map insertion (the state
is unchanged), while an observation at or above the threshold is retained
(its address is present in the result map afterwards). -/
theorem C5_rssi_threshold (cfg : BaselineConfig) (st : CollectorState)
    (lockOk : Bool) (dev : BleAdv) (m : List (List Nat × ObservedEnhanced))
    (w : WifiNet) :
    (dev.rssi < cfg.rssiThreshold → bleOnResult cfg st lockOk dev = st)
    ∧ (cfg.rssiThreshold ≤ dev.rssi → (toUpperNoDelim dev.addr).length = 12 →
        lockOk = true →
        (mapLookup (bleOnResult cfg st lockOk dev).entries
          (toUpperNoDelim dev.addr)).isSome = true)
    ∧ (w.rssi < cfg.rssiThreshold → wifiObserve cfg m w = m)
    ∧ (cfg.rssiThreshold ≤ w.rssi → (toUpperNoDelim w.bssid).length = 12 →
        (mapLookup (wifiObserve cfg m w) (toUpperNoDelim w.bssid)).isSome = true) := by
  refine ⟨?_, ?_, ?_, ?_⟩
  · intro h
    unfold bleOnResult
    dsimp only
    by_cases hlen : (toUpperNoDelim dev.addr).length ≠ 12
    · rw [if_pos hlen]
    · rw [if_neg hlen, if_pos h]
  · intro h hlen hlock
    subst hlock
    unfold bleOnResult
    dsimp only
    rw [if_neg (fun hc => hc hlen), if_neg (not_lt.mpr h),
      if_neg (by simp)]
    split_ifs <;> simp [mapLookup_insert_self]
  · intro h
    unfold wifiObserve
    rw [if_pos h]
  · intro h hlen
    unfold wifiObserve
    dsimp only
    rw [if_neg (not_lt.mpr h), if_neg (fun hc => hc hlen)]
    split_ifs <;> simp [mapLookup_insert_self]

/-- Witness for C5 with threshold -70: RSSI -75 is discarded, RSSI -65 is
retained, on both radio paths. -/
theorem C5_rssi_threshold_witness :
    ((-75 : Int) < -70
      ∧ bleOnResult ⟨-70, false⟩ ⟨[], 0, 0⟩ true
          ⟨[65, 65, 66, 66, 67, 67, 68, 68, 69, 69, 70, 70], -75, false, [], 0, []⟩ =
        ⟨[], 0, 0⟩)
    ∧ ((-70 : Int) ≤ -65
      ∧ (mapLookup (bleOnResult ⟨-70, false⟩ ⟨[], 0, 0⟩ true
          ⟨[65, 65, 66, 66, 67, 67, 68, 68, 69, 69, 70, 70], -65, false, [], 0, []⟩).entries
          (toUpperNoDelim [65, 65, 66, 66, 67, 67, 68, 68, 69, 69, 70, 70])).isSome = true)
    ∧ ((-75 : Int) < -70
      ∧ wifiObserve ⟨-70, false⟩ []
          ⟨[65, 65, 66, 66, 67, 67, 68, 68, 69, 69, 70, 71], -75, [], 1, 0, 0, 0⟩ = [])
    ∧ ((-70 : Int) ≤ -65
      ∧ (mapLookup (wifiObserve ⟨-70, false⟩ []
          ⟨[65, 65, 66, 66, 67, 67, 68, 68, 69, 69, 70, 71], -65, [], 1, 0, 0, 0⟩)
          (toUpperNoDelim [65, 65, 66, 66, 67, 67, 68, 68, 69, 69, 70, 71])).isSome = true) :=
  ⟨⟨by decide, (C5_rssi_threshold ⟨-70, false⟩ ⟨[], 0, 0⟩ true
      ⟨[65, 65, 66, 66, 67, 67, 68, 68, 69, 69, 70, 70], -75, false, [], 0, []⟩ []
      ⟨[65, 65, 66, 66, 67, 67, 68, 68, 69, 69, 70, 71], -75, [], 1, 0, 0, 0⟩).1
      (by decide)⟩,
    ⟨by decide, (C5_rssi_threshold ⟨-70, false⟩ ⟨[], 0, 0⟩ true
      ⟨[65, 65, 66, 66, 67, 67, 68, 68, 69, 69, 70, 70], -65, false, [], 0, []⟩ []
      ⟨[65, 65, 66, 66, 67, 67, 68, 68, 69, 69, 70, 71], -65, [], 1, 0, 0, 0⟩).2.1
      (by decide) (by decide) rfl⟩,
    ⟨by decide, (C5_rssi_threshold ⟨-70, false⟩ ⟨[], 0, 0⟩ true
      ⟨[65, 65, 66, 66, 67, 67, 68, 68, 69, 69, 70, 70], -75, false, [], 0, []⟩ []
      ⟨[65, 65, 66, 66, 67, 67, 68, 68, 69, 69, 70, 71], -75, [], 1, 0, 0, 0⟩).2.2.1
      (by decide)⟩,
    ⟨by decide, (C5_rssi_threshold ⟨-70, false⟩ ⟨[], 0, 0⟩ true
      ⟨[65, 65, 66, 66, 67, 67, 68, 68, 69, 69, 70, 70], -65, false, [], 0, []⟩ []
      ⟨[65, 65, 66, 66, 67, 67, 68, 68, 69, 69, 70, 71], -65, [], 1, 0, 0, 0⟩).2.2.2
      (by decide) (by decide)⟩⟩

theorem setBestRssiEnhanced_name (o : ObservedEnhanced) (r : Int) :
    (setBestRssiEnhanced o r).name = o.name := by
  unfold setBestRssiEnhanced
  split_ifs <;> rfl

/-- Counterexample to claim C6 as stated: on the BLE collector path the
display name is NOT only set while empty — a device observed with name Foo
and then re-observed with name Bar ends up named Bar, the first non-empty
name does not win. -/
theorem C6_counterexample :
    Option.map ObservedEnhanced.name
      (mapLookup (bleOnResult ⟨-100, false⟩
        (bleOnResult ⟨-100, false⟩ ⟨[], 0, 0⟩ true
          ⟨[65, 65, 66, 66, 67, 67, 68, 68, 69, 69, 70, 70], -80, true,
            [70, 111, 111], 0, []⟩) true
        ⟨[65, 65, 66, 66, 67, 67, 68, 68, 69, 69, 70, 70], -75, true,
          [66, 97, 114], 0, []⟩).entries
        [65, 65, 66, 66, 67, 67, 68, 68, 69, 69, 70, 70])
      = some [66, 97, 114]
    ∧ ([66, 97, 114] : List Nat) ≠ [70, 111, 111] := by decide

/-- Claim C6 amended: the first-non-empty-name-wins rule holds on the Wi-Fi
ingestion path and in the dual-radio merge (an existing non-empty name is
never overwritten there), but on the BLE collector path the most recent
non-empty observed name wins — every later non-empty BLE name overwrites the
stored one, while an empty observation never erases it. -/
theorem C6_name_policy_amended (cfg : BaselineConfig)
    (m : List (List Nat × ObservedEnhanced)) (w : WifiNet)
    (o : ObservedEnhanced) (st : CollectorState) (dev : BleAdv)
    (mac : List Nat) (oBle : ObservedEnhanced) :
    (mapLookup m (toUpperNoDelim w.bssid) = some o → o.name ≠ [] →
      Option.map ObservedEnhanced.name
        (mapLookup (wifiObserve cfg m w) (toUpperNoDelim w.bssid)) = some o.name)
    ∧ (mapLookup m mac = some o → o.name ≠ [] →
      Option.map ObservedEnhanced.name
        (mapLookup (mergeBLEEntry m mac oBle) mac) = some o.name)
    ∧ ((toUpperNoDelim dev.addr).length = 12 → cfg.rssiThreshold ≤ dev.rssi →
      dev.haveName = true → 0 < dev.name.length →
      Option.map ObservedEnhanced.name
        (mapLookup (bleOnResult cfg st true dev).entries (toUpperNoDelim dev.addr)) =
        some (dev.name.take 63)) := by
  refine ⟨?_, ?_, ?_⟩
  · intro hl hne
    unfold wifiObserve
    dsimp only
    split_ifs <;> simp_all [mapLookup_insert_self, setBestRssiEnhanced_name]
  · intro hl hne
    unfold mergeBLEEntry
    rw [hl]
    dsimp only
    split_ifs <;> simp_all [mapLookup_insert_self]
  · intro hlen hth hname hlen2
    unfold bleOnResult
    dsimp only
    rw [if_neg (fun hc => hc hlen), if_neg (not_lt.mpr hth), if_neg (by simp)]
    split_ifs <;>
      simp_all [mapLookup_insert_self, setBestRssiEnhanced_name, safeCopy]

/-- Witness for C6 (amended), scenario-2 flavored: a Wi-Fi-side record named
Foo at -40 dBm keeps its name through the merge with a BLE record, and a BLE
observation carrying the name Bar stores exactly that name. -/
theorem C6_name_policy_amended_witness :
    (mapLookup [([65, 65, 66, 66, 67, 67, 68, 68, 69, 69, 70, 70],
        { ObservedEnhanced.init with name := [70, 111, 111], rssi := -40, hasRssi := true })]
        [65, 65, 66, 66, 67, 67, 68, 68, 69, 69, 70, 70] =
      some { ObservedEnhanced.init with name := [70, 111, 111], rssi := -40, hasRssi := true }
      ∧ ({ ObservedEnhanced.init with name := [70, 111, 111], rssi := -40, hasRssi := true }).name ≠ []
      ∧ Option.map ObservedEnhanced.name
          (mapLookup (mergeBLEEntry [([65, 65, 66, 66, 67, 67, 68, 68, 69, 69, 70, 70],
            { ObservedEnhanced.init with name := [70, 111, 111], rssi := -40, hasRssi := true })]
            [65, 65, 66, 66, 67, 67, 68, 68, 69, 69, 70, 70]
            { ObservedEnhanced.init with rssi := -80, hasRssi := true })
            [65, 65, 66, 66, 67, 67, 68, 68, 69, 69, 70, 70]) =
        some ({ ObservedEnhanced.init with name := [70, 111, 111], rssi := -40, hasRssi := true }).name)
    ∧ ((toUpperNoDelim [65, 65, 66, 66, 67, 67, 68, 68, 69, 69, 70, 70]).length = 12
      ∧ Option.map ObservedEnhanced.name
          (mapLookup (bleOnResult ⟨-100, false⟩ ⟨[], 0, 0⟩ true
            ⟨[65, 65, 66, 66, 67, 67, 68, 68, 69, 69, 70, 70], -75, true,
              [66, 97, 114], 0, []⟩).entries
            (toUpperNoDelim [65, 65, 66, 66, 67, 67, 68, 68, 69, 69, 70, 70])) =
        some (([66, 97, 114] : List Nat).take 63)) :=
  ⟨⟨by decide, by decide,
    (C6_name_policy_amended ⟨-100, false⟩
      [([65, 65, 66, 66, 67, 67, 68, 68, 69, 69, 70, 70],
        { ObservedEnhanced.init with name := [70, 111, 111], rssi := -40, hasRssi := true })]
      ⟨[65, 65, 66, 66, 67, 67, 68, 68, 69, 69, 70, 71], -40, [], 1, 0, 0, 0⟩
      { ObservedEnhanced.init with name := [70, 111, 111], rssi := -40, hasRssi := true }
      ⟨[], 0, 0⟩
      ⟨[65, 65, 66, 66, 67, 67, 68, 68, 69, 69, 70, 70], -75, true, [66, 97, 114], 0, []⟩
      [65, 65, 66, 66, 67, 67, 68, 68, 69, 69, 70, 70]
      { ObservedEnhanced.init with rssi := -80, hasRssi := true }).2.1
      (by decide) (by decide)⟩,
    ⟨by decide,
    (C6_name_policy_amended ⟨-100, false⟩
      [([65, 65, 66, 66, 67, 67, 68, 68, 69, 69, 70, 70],
        { ObservedEnhanced.init with name := [70, 111, 111], rssi := -40, hasRssi := true })]
      ⟨[65, 65, 66, 66, 67, 67, 68, 68, 69, 69, 70, 71], -40, [], 1, 0, 0, 0⟩
      { ObservedEnhanced.init with name := [70, 111, 111], rssi := -40, hasRssi := true }
      ⟨[], 0, 0⟩
      ⟨[65, 65, 66, 66, 67, 67, 68, 68, 69, 69, 70, 70], -75, true, [66, 97, 114], 0, []⟩
      [65, 65, 66, 66, 67, 67, 68, 68, 69, 69, 70, 70]
      { ObservedEnhanced.init with rssi := -80, hasRssi := true }).2.2
      (by decide) (by decide) (by decide) (by decide)⟩⟩

/-! ## Fox-hunt engine -/

/-- FoxHuntState from main.cpp (the running flag is passed separately). -/
@[ext]
structure FoxHuntState where
  rssi : Int
  hasTarget : Bool
  lastSeenMs : Nat
  firstSessionBeeped : Bool
  startBeepsPending : Bool
  isBeeping : Bool
  beepStartMs : Nat
deriving DecidableEq

/-- The Arduino map() function (long arithmetic, C division truncating
toward zero). -/
def arduinoMap (x inMin inMax outMin outMax : Int) : Int :=
  Int.tdiv ((x - inMin) * (outMax - outMin)) (inMax - inMin) + outMin

/-- calculateBeepIntervalFox from main.cpp. -/
def calculateBeepIntervalFox (rssi : Int) : Int :=
  if rssi ≥ -35 then arduinoMap rssi (-35) (-25) 80 25
  else if rssi ≥ -45 then arduinoMap rssi (-45) (-35) 140 80
  else if rssi ≥ -55 then arduinoMap rssi (-55) (-45) 250 140
  else if rssi ≥ -65 then arduinoMap rssi (-65) (-55) 450 250
  else if rssi ≥ -75 then arduinoMap rssi (-75) (-65) 900 450
  else if rssi ≥ -85 then arduinoMap rssi (-85) (-75) 1600 900
  else 2800

/-- handleFoxProximityBeeping from main.cpp.  `lockOk` is the 10 ms timed
take of detectMutex used to snapshot the state (on timeout the local
defaults hasTarget = false, lastSeen = 0, rssi = -100 are used).  The second
component is the indicator command issued: some true = on, some false = off,
none = left as it was. -/
def handleFoxProximityBeeping (lockOk : Bool) (st : FoxHuntState) (now : Nat) :
    FoxHuntState × Option Bool :=
  let hasTarget := if lockOk then st.hasTarget else false
  let lastSeen := if lockOk then st.lastSeenMs else 0
  let rssi := if lockOk then st.rssi else -100
  if hasTarget = false ∨ Config.FOX_LOST_TIMEOUT_MS < now - lastSeen then
    ({ st with isBeeping := false }, some false)
  else
    let interval := calculateBeepIntervalFox rssi
    if rssi ≥ -25 then ({ st with isBeeping := true }, some true)
    else if st.isBeeping = true then
      if Config.FOX_BEEP_DUR_MS ≤ now - st.beepStartMs then
        ({ st with isBeeping := false }, some false)
      else (st, none)
    else
      if interval.toNat ≤ now - st.beepStartMs then
        ({ st with isBeeping := true, beepStartMs := now }, some true)
      else (st, none)

/-- FoxBLECallbacks::onResult from main.cpp, with its early-return gates. -/
def foxOnResult (running filterLockOk detectLockOk : Bool)
    (filters : List (List Nat)) (addr : List Nat) (rssi : Int) (now : Nat)
    (st : FoxHuntState) : FoxHuntState :=
  if running = false then st
  else
    let macNo := toUpperNoDelim addr
    if macNo.length ≠ 12 then st
    else if matchesAnyFilter filterLockOk macNo filters = false then st
    else if detectLockOk = false then st
    else
      let st1 := { st with rssi := toInt16 rssi, hasTarget := true, lastSeenMs := now }
      if st1.firstSessionBeeped = false then
        { st1 with firstSessionBeeped := true, startBeepsPending := true }
      else st1

/-- Counterexample to claim C7 as stated: a fox-hunt target silent for
4001 ms has its indicator forced off, but hasTarget is NOT cleared — it
remains true after the evaluation. -/
theorem C7_counterexample :
    (handleFoxProximityBeeping true ⟨-60, true, 0, true, false, true, 0⟩ 4001).1.hasTarget = true
    ∧ (handleFoxProximityBeeping true ⟨-60, true, 0, true, false, true, 0⟩ 4001).2 = some false := by
  decide

/-- Claim C7 amended: in fox-hunt mode, whenever now - lastSeenAt exceeds the
4 s lost timeout (or no target is held), the indicator is forced off
regardless of the current beep phase and the beeping flag is cleared, but
hasTarget is left unchanged (it is never cleared here); the forced-off
outcome repeats on every subsequent evaluation until a new matching
advertisement refreshes lastSeenMs. -/
theorem C7_fox_lost_amended (st : FoxHuntState) (now : Nat)
    (h : st.hasTarget = false ∨ 4000 < now - st.lastSeenMs) :
    (handleFoxProximityBeeping true st now).2 = some false
    ∧ (handleFoxProximityBeeping true st now).1.isBeeping = false
    ∧ (handleFoxProximityBeeping true st now).1.hasTarget = st.hasTarget
    ∧ (handleFoxProximityBeeping true st now).1.lastSeenMs = st.lastSeenMs
    ∧ (∀ later, now ≤ later →
        (handleFoxProximityBeeping true
          (handleFoxProximityBeeping true st now).1 later).2 = some false) := by
  have hcond : ((if true then st.hasTarget else false) = false
      ∨ Config.FOX_LOST_TIMEOUT_MS < now - (if true then st.lastSeenMs else 0)) := by
    unfold Config.FOX_LOST_TIMEOUT_MS
    simpa using h
  have hmain : handleFoxProximityBeeping true st now =
      ({ st with isBeeping := false }, some false) := by
    unfold handleFoxProximityBeeping
    dsimp only
    rw [if_pos hcond]
  refine ⟨by rw [hmain], by rw [hmain], by rw [hmain], by rw [hmain], ?_⟩
  intro later hlater
  rw [hmain]
  have hcond2 : ((if true then ({ st with isBeeping := false } : FoxHuntState).hasTarget
        else false) = false
      ∨ Config.FOX_LOST_TIMEOUT_MS <
          later - (if true then ({ st with isBeeping := false } : FoxHuntState).lastSeenMs
            else 0)) := by
    unfold Config.FOX_LOST_TIMEOUT_MS
    simp only [if_true]
    rcases h with h | h
    · exact Or.inl h
    · exact Or.inr (by show 4000 < later - st.lastSeenMs; omega)
  unfold handleFoxProximityBeeping
  dsimp only
  rw [if_pos hcond2]

/-- Witness for C7 (amended): a target last seen at 0 ms evaluated at
4001 ms while mid-beep. -/
theorem C7_fox_lost_amended_witness :
    ((⟨-60, true, 0, true, false, true, 0⟩ : FoxHuntState).hasTarget = false
      ∨ 4000 < (4001 : Nat) - (⟨-60, true, 0, true, false, true, 0⟩ : FoxHuntState).lastSeenMs)
    ∧ ((handleFoxProximityBeeping true ⟨-60, true, 0, true, false, true, 0⟩ 4001).2 = some false
      ∧ (handleFoxProximityBeeping true ⟨-60, true, 0, true, false, true, 0⟩ 4001).1.isBeeping = false
      ∧ (handleFoxProximityBeeping true ⟨-60, true, 0, true, false, true, 0⟩ 4001).1.hasTarget =
          (⟨-60, true, 0, true, false, true, 0⟩ : FoxHuntState).hasTarget
      ∧ (handleFoxProximityBeeping true ⟨-60, true, 0, true, false, true, 0⟩ 4001).1.lastSeenMs =
          (⟨-60, true, 0, true, false, true, 0⟩ : FoxHuntState).lastSeenMs
      ∧ (∀ later, 4001 ≤ later →
          (handleFoxProximityBeeping true
            (handleFoxProximityBeeping true ⟨-60, true, 0, true, false, true, 0⟩ 4001).1
            later).2 = some false)) :=
  ⟨Or.inr (by decide),
    C7_fox_lost_amended ⟨-60, true, 0, true, false, true, 0⟩ 4001 (Or.inr (by decide))⟩

/-! ## Address validation (claim C8) -/

/-- Counterexample to claim C8 as stated: the input AABBCCDDEEFF00 has 14 hex
characters of stripped content — not exactly 6 or 12 — yet isValidMAC accepts
it, because toUpperNoDelim silently truncates to the first 12 characters. -/
theorem C8_counterexample :
    (specNormalize [65, 65, 66, 66, 67, 67, 68, 68, 69, 69, 70, 70, 48, 48]).length = 14
    ∧ isValidMAC [65, 65, 66, 66, 67, 67, 68, 68, 69, 69, 70, 70, 48, 48] = true := by
  decide

/-- Claim C8 amended: normalization strips the delimiters, uppercases, and
truncates to the first 12 non-delimiter characters; validation then succeeds
iff the stripped content has length exactly 6, or length at least 12 with the
first 12 stripped characters all hex — so inputs of stripped length 7 to 11
(or with bad characters) are rejected, but an input with more than 12 hex
characters is accepted via truncation rather than rejected. -/
theorem C8_validation_amended (s : List Nat) :
    toUpperNoDelim s = (specNormalize s).take 12
    ∧ (isValidMAC s = true ↔
        (((specNormalize s).length = 6 ∨ 12 ≤ (specNormalize s).length)
          ∧ ((specNormalize s).take 12).all isxdigit = true)) := by
  refine ⟨toUpperNoDelim_eq_take s, ?_⟩
  unfold isValidMAC
  dsimp only
  rw [toUpperNoDelim_eq_take, List.length_take]
  split_ifs with h
  · simp only [Bool.false_eq_true, false_iff]
    rintro ⟨h1, _⟩
    omega
  · constructor
    · intro ha
      exact ⟨by omega, ha⟩
    · intro ha
      exact ha.2

/-- Claim C9: the payload caps are soft limits — once the payload-device cap
or the payload-memory cap is reached, a fresh device's observation captures
no payload bytes and leaves both payload counters untouched, yet its RSSI and
name updates still reach the result map, and the address appears there. -/
theorem C9_payload_caps_soft (cfg : BaselineConfig) (st : CollectorState)
    (dev : BleAdv)
    (_hcap : cfg.capturePayload = true)
    (hlen : (toUpperNoDelim dev.addr).length = 12)
    (hth : cfg.rssiThreshold ≤ dev.rssi)
    (hfull : Config.MAX_PAYLOAD_DEVICES ≤ st.devicesWithPayload
      ∨ Config.MAX_PAYLOAD_MEMORY ≤ st.payloadMemoryUsed)
    (hfresh : mapLookup st.entries (toUpperNoDelim dev.addr) = none) :
    (bleOnResult cfg st true dev).devicesWithPayload = st.devicesWithPayload
    ∧ (bleOnResult cfg st true dev).payloadMemoryUsed = st.payloadMemoryUsed
    ∧ ∃ o, mapLookup (bleOnResult cfg st true dev).entries
          (toUpperNoDelim dev.addr) = some o
        ∧ o.hasPayload = false
        ∧ o.payloadLength = 0
        ∧ o.hasRssi = true
        ∧ o.rssi = toInt16 dev.rssi
        ∧ o.name = (if dev.haveName = true ∧ 0 < dev.name.length
            then dev.name.take 63 else []) := by
  unfold bleOnResult
  dsimp only
  rw [if_neg (fun hc => hc hlen), if_neg (not_lt.mpr hth), if_neg (by simp),
    hfresh]
  split_ifs <;>
    first
      | (exfalso
         simp_all [Config.MAX_PAYLOAD_DEVICES, Config.MAX_PAYLOAD_MEMORY]
         omega)
      | exact ⟨rfl, rfl, _, mapLookup_insert_self _ _ _, rfl, rfl, rfl, rfl, rfl⟩

/-- Witness for C9: with the device cap already reached (50 devices), a fresh
device observed at -50 dBm with name N still lands in the map with its RSSI
and name but without payload. -/
theorem C9_payload_caps_soft_witness :
    ((⟨-100, true⟩ : BaselineConfig).capturePayload = true
      ∧ (toUpperNoDelim [65, 65, 66, 66, 67, 67, 68, 68, 69, 69, 70, 70]).length = 12
      ∧ (⟨-100, true⟩ : BaselineConfig).rssiThreshold ≤ (-50 : Int)
      ∧ (Config.MAX_PAYLOAD_DEVICES ≤ (⟨[], 100, 50⟩ : CollectorState).devicesWithPayload
        ∨ Config.MAX_PAYLOAD_MEMORY ≤ (⟨[], 100, 50⟩ : CollectorState).payloadMemoryUsed)
      ∧ mapLookup (⟨[], 100, 50⟩ : CollectorState).entries
          (toUpperNoDelim [65, 65, 66, 66, 67, 67, 68, 68, 69, 69, 70, 70]) = none)
    ∧ ((bleOnResult ⟨-100, true⟩ ⟨[], 100, 50⟩ true
        ⟨[65, 65, 66, 66, 67, 67, 68, 68, 69, 69, 70, 70], -50, true, [78], 0,
          [1, 2, 3]⟩).devicesWithPayload = (⟨[], 100, 50⟩ : CollectorState).devicesWithPayload
      ∧ (bleOnResult ⟨-100, true⟩ ⟨[], 100, 50⟩ true
          ⟨[65, 65, 66, 66, 67, 67, 68, 68, 69, 69, 70, 70], -50, true, [78], 0,
            [1, 2, 3]⟩).payloadMemoryUsed = (⟨[], 100, 50⟩ : CollectorState).payloadMemoryUsed
      ∧ ∃ o, mapLookup (bleOnResult ⟨-100, true⟩ ⟨[], 100, 50⟩ true
            ⟨[65, 65, 66, 66, 67, 67, 68, 68, 69, 69, 70, 70], -50, true, [78], 0,
              [1, 2, 3]⟩).entries
            (toUpperNoDelim [65, 65, 66, 66, 67, 67, 68, 68, 69, 69, 70, 70]) = some o
          ∧ o.hasPayload = false
          ∧ o.payloadLength = 0
          ∧ o.hasRssi = true
          ∧ o.rssi = toInt16 (-50)
          ∧ o.name = (if (true : Bool) = true ∧ 0 < ([78] : List Nat).length
              then ([78] : List Nat).take 63 else [])) :=
  ⟨⟨rfl, by decide, by decide, Or.inl (by decide), rfl⟩,
    C9_payload_caps_soft ⟨-100, true⟩ ⟨[], 100, 50⟩
      ⟨[65, 65, 66, 66, 67, 67, 68, 68, 69, 69, 70, 70], -50, true, [78], 0, [1, 2, 3]⟩
      rfl (by decide) (by decide) (Or.inl (by decide)) rfl⟩

/-- Claim C10: when the 100 ms take of the filter lock times out,
matchesAnyFilter returns false for every address — even one that actually
matches a saved filter — so the advertisement is a complete non-match and
contributes nothing to detection or fox-hunt state. -/
theorem C10_lock_timeout_nonmatch (fs : List (List Nat)) (addr : List Nat)
    (r : Int) (now : Nat) (running dlock : Bool)
    (dst : DetectionState) (fxst : FoxHuntState) :
    matchesAnyFilter false (toUpperNoDelim addr) fs = false
    ∧ detectOnResult running false dlock fs addr r now dst = (dst, false)
    ∧ foxOnResult running false dlock fs addr r now fxst = fxst
    ∧ (matchesAnyFilter true (toUpperNoDelim addr) fs = true →
        matchesAnyFilter false (toUpperNoDelim addr) fs = false) := by
  refine ⟨rfl, ?_, ?_, fun _ => rfl⟩
  · unfold detectOnResult
    dsimp only
    by_cases hr : running = false
    · rw [if_pos hr]
    · rw [if_neg hr]
      by_cases hlen : (toUpperNoDelim addr).length ≠ 12
      · rw [if_pos hlen]
      · rw [if_neg hlen,
          if_pos (show matchesAnyFilter false (toUpperNoDelim addr) fs = false from rfl)]
  · unfold foxOnResult
    dsimp only
    by_cases hr : running = false
    · rw [if_pos hr]
    · rw [if_neg hr]
      by_cases hlen : (toUpperNoDelim addr).length ≠ 12
      · rw [if_pos hlen]
      · rw [if_neg hlen,
          if_pos (show matchesAnyFilter false (toUpperNoDelim addr) fs = false from rfl)]

/-- Witness for C10 at the filter set containing the OUI aabbcc and the
matching address AABBCC112233. -/
theorem C10_lock_timeout_nonmatch_witness :
    matchesAnyFilter true
      (toUpperNoDelim [65, 65, 66, 66, 67, 67, 49, 49, 50, 50, 51, 51])
      [[97, 97, 98, 98, 99, 99]] = true
    ∧ matchesAnyFilter false
        (toUpperNoDelim [65, 65, 66, 66, 67, 67, 49, 49, 50, 50, 51, 51])
        [[97, 97, 98, 98, 99, 99]] = false :=
  ⟨by decide,
    (C10_lock_timeout_nonmatch [[97, 97, 98, 98, 99, 99]]
      [65, 65, 66, 66, 67, 67, 49, 49, 50, 50, 51, 51] (-60) 0 true true
      ⟨0, -127, -127, 0, false⟩ ⟨-100, false, 0, false, false, false, 0⟩).2.2.2
      (by decide)⟩

end OuiSpy
